import Mathlib

/-!
Verification development for the MailerSlave campaign-send pipeline.

Strings are modelled as Lean `String`s (lists of characters); `datetime.utcnow()`
is modelled as a logical clock threaded through an effect state; the document
store, the SMTP transport, the LLM chat call and the log-insert outcome are
modelled as explicit oracles in a `RunEnv` record, so that every effect of the
Python source becomes an observable field of the Lean state.
-/

namespace MailerSlave

/-! ## Template rendering (backend/services/template_service.py)

`TemplateService.render_template` delegates to Python's
`string.Template.safe_substitute`, whose identifier pattern is the ASCII
`[A-Za-z_][A-Za-z0-9_]*` (idpattern `(?a:[_a-z][_a-z0-9]*)` with IGNORECASE). -/

/-- First character of a placeholder identifier: ASCII letter or underscore. -/
def isIdentStart (c : Char) : Bool := c.isAlpha || c = '_'

/-- Continuation character of a placeholder identifier. -/
def isIdentCont (c : Char) : Bool := c.isAlpha || c.isDigit || c = '_'

/-- Longest identifier-continuation run at the head of the list, and the rest. -/
def takeIdent : List Char → List Char × List Char
  | [] => ([], [])
  | c :: s =>
    if isIdentCont c then
      let p := takeIdent s
      (c :: p.1, p.2)
    else ([], c :: s)

theorem takeIdent_snd_length_le (s : List Char) : (takeIdent s).2.length ≤ s.length := by
  induction s with
  | nil => simp [takeIdent]
  | cons c s ih =>
    simp only [takeIdent]
    split
    · exact Nat.le_succ_of_le ih
    · simp

theorem takeIdent_eq_length_le {s n r : List Char} (h : takeIdent s = (n, r)) :
    r.length ≤ s.length := by
  have h2 := takeIdent_snd_length_le s
  rw [h] at h2
  simpa using h2

theorem tail_length_le {α : Type} (l : List α) : l.tail.length ≤ l.length := by
  cases l <;> simp

/-- A nonempty ASCII identifier, as matched by the idpattern. -/
def validIdent : List Char → Bool
  | [] => false
  | c :: cs => isIdentStart c && cs.all isIdentCont

/-- The scanner of `string.Template.safe_substitute`: `$$` is an escaped `$`,
`$name` and `${name}` with `name` bound in the mapping are replaced by the value,
placeholders with unbound names are left verbatim, and a `$` that starts no
well-formed placeholder is passed through as a literal (the `invalid` group of
the pattern, which `safe_substitute` leaves in place). -/
def scan (V : List Char → Option (List Char)) : List Char → List Char
  | [] => []
  | c :: s =>
    if c = '$' then
      match s with
      | [] => ['$']
      | d :: s2 =>
        if d = '$' then '$' :: scan V s2
        else if d = '{' then
          let name := (takeIdent s2).1
          let rest := (takeIdent s2).2
          if validIdent name then
            if rest.head? = some '}' then
              match V name with
              | some v => v ++ scan V rest.tail
              | none => '$' :: '{' :: (name ++ '}' :: scan V rest.tail)
            else '$' :: '{' :: scan V s2
          else '$' :: '{' :: scan V s2
        else if isIdentStart d then
          let tail := (takeIdent s2).1
          let rest := (takeIdent s2).2
          match V (d :: tail) with
          | some v => v ++ scan V rest
          | none => '$' :: d :: (tail ++ scan V rest)
        else '$' :: d :: scan V s2
    else c :: scan V s
termination_by s => s.length
decreasing_by
  all_goals simp only [List.length_cons]
  all_goals try omega
  all_goals
    first
    | exact lt_of_le_of_lt (le_trans (tail_length_le _) (takeIdent_snd_length_le _)) (by omega)
    | exact lt_of_le_of_lt (takeIdent_snd_length_le _) (by omega)

/-- `TemplateService.render_template`: wraps `Template(content).safe_substitute(variables)`.
The mapping is modelled as a partial function from names to values; the function
is total, so rendering never raises regardless of missing keys. -/
def render_template (content : String) (vars : String → Option String) : String :=
  ⟨scan (fun n => (vars ⟨n⟩).map String.data) content.data⟩

/-! A template made of literal text and placeholders, used to state what
`safe_substitute` does to each placeholder occurrence. -/

/-- One template segment: literal text, an unbraced placeholder `$name`, or a
braced placeholder `${name}`. -/
inductive Tok where
  | lit : List Char → Tok
  | ph : List Char → Tok
  | phB : List Char → Tok
deriving DecidableEq, Repr

/-- The concrete text of a segment. -/
def Tok.flat : Tok → List Char
  | .lit s => s
  | .ph n => '$' :: n
  | .phB n => '$' :: '{' :: (n ++ ['}'])

/-- The template string denoted by a list of segments. -/
def flatToks (ts : List Tok) : List Char := (ts.map Tok.flat).flatten

/-- What the spec says one segment renders to: a bound placeholder becomes its
value (inserted verbatim, never rescanned), an unbound one stays a literal
placeholder marker, literal text is unchanged. -/
def renderTok (V : List Char → Option (List Char)) : Tok → List Char
  | .lit s => s
  | .ph n => match V n with | some v => v | none => '$' :: n
  | .phB n => match V n with | some v => v | none => '$' :: '{' :: (n ++ ['}'])

/-- True when the list does not start with an identifier-continuation character,
so a preceding unbraced placeholder name cannot absorb it. -/
def headSafe : List Char → Bool
  | [] => true
  | c :: _ => !(isIdentCont c)

/-- Well-formed segment list: literal segments are nonempty and contain no `$`
(every `$` of the template belongs to a placeholder segment), placeholder names
are valid identifiers, and an unbraced placeholder is not followed directly by
an identifier character. -/
def wfToks : List Tok → Bool
  | [] => true
  | .lit s :: ts => (!s.isEmpty) && s.all (fun c => !(c = '$')) && wfToks ts
  | .ph n :: ts => validIdent n && headSafe (flatToks ts) && wfToks ts
  | .phB n :: ts => validIdent n && wfToks ts

theorem isIdentStart_imp_cont (c : Char) (h : isIdentStart c = true) :
    isIdentCont c = true := by
  simp only [isIdentStart, Bool.or_eq_true] at h
  simp only [isIdentCont, Bool.or_eq_true]
  tauto

theorem validIdent_all_cont (n : List Char) (h : validIdent n = true) :
    n.all isIdentCont = true := by
  cases n with
  | nil => simp [validIdent] at h
  | cons c cs =>
    simp only [validIdent, Bool.and_eq_true] at h
    simp only [List.all_cons, Bool.and_eq_true]
    exact ⟨isIdentStart_imp_cont c h.1, h.2⟩

theorem takeIdent_append (n r : List Char) (hn : n.all isIdentCont = true)
    (hr : headSafe r = true) : takeIdent (n ++ r) = (n, r) := by
  induction n with
  | nil =>
    cases r with
    | nil => simp [takeIdent]
    | cons c t =>
      simp only [headSafe, Bool.not_eq_true'] at hr
      simp [takeIdent, hr]
  | cons a n ih =>
    simp only [List.all_cons, Bool.and_eq_true] at hn
    simp [takeIdent, hn.1, ih hn.2]

theorem scan_cons_of_ne (V : List Char → Option (List Char)) (c : Char) (s : List Char)
    (h : ¬ c = '$') : scan V (c :: s) = c :: scan V s := by
  rw [scan.eq_def]
  simp [h]

theorem scan_append_lit (V : List Char → Option (List Char)) (s r : List Char)
    (h : s.all (fun c => !(c = '$')) = true) : scan V (s ++ r) = s ++ scan V r := by
  induction s with
  | nil => simp
  | cons c s ih =>
    simp only [List.all_cons, Bool.and_eq_true, Bool.not_eq_true'] at h
    have hc : ¬ c = '$' := by simpa using h.1
    simp only [List.cons_append]
    rw [scan_cons_of_ne V c _ hc, ih (by simpa using h.2)]

theorem scan_ph (V : List Char → Option (List Char)) (n r : List Char)
    (hn : validIdent n = true) (hr : headSafe r = true) :
    scan V ('$' :: (n ++ r)) =
      (match V n with | some v => v | none => '$' :: n) ++ scan V r := by
  cases n with
  | nil => simp [validIdent] at hn
  | cons d cs =>
    simp only [validIdent, Bool.and_eq_true] at hn
    have hd : isIdentStart d = true := hn.1
    have hne : ¬ d = '$' := by
      intro e; subst e; simp [isIdentStart] at hd
    have hnb : ¬ d = '{' := by
      intro e; subst e; simp [isIdentStart] at hd
    have ht := takeIdent_append cs r hn.2 hr
    simp only [List.cons_append]
    rw [scan.eq_def]
    simp only [if_pos rfl, ht, hd, hne, hnb, if_false, if_true]
    cases hv : V (d :: cs) <;> simp [hv]

theorem scan_phB (V : List Char → Option (List Char)) (n r : List Char)
    (hn : validIdent n = true) :
    scan V ('$' :: '{' :: (n ++ '}' :: r)) =
      (match V n with | some v => v | none => '$' :: '{' :: (n ++ ['}'])) ++ scan V r := by
  have ht := takeIdent_append n ('}' :: r) (validIdent_all_cont n hn) (by rfl)
  have hnd : ¬ ('{' : Char) = '$' := by decide
  rw [scan.eq_def]
  simp only [if_pos rfl, ht, hn, hnd, if_false, if_true]
  cases hv : V n <;> simp [hv]

theorem scan_flatToks (V : List Char → Option (List Char)) :
    ∀ ts : List Tok, wfToks ts = true →
      scan V (flatToks ts) = (ts.map (renderTok V)).flatten := by
  intro ts h
  induction ts with
  | nil => simp [flatToks, scan]
  | cons t ts ih =>
    cases t with
    | lit s =>
      simp only [wfToks, Bool.and_eq_true] at h
      have hf : flatToks (Tok.lit s :: ts) = s ++ flatToks ts := by
        simp [flatToks, Tok.flat]
      rw [hf, scan_append_lit V s _ h.1.2, ih h.2]
      simp [renderTok]
    | ph n =>
      simp only [wfToks, Bool.and_eq_true] at h
      have hf : flatToks (Tok.ph n :: ts) = '$' :: (n ++ flatToks ts) := by
        simp [flatToks, Tok.flat]
      rw [hf, scan_ph V n _ h.1.1 h.1.2, ih h.2]
      simp [renderTok]
    | phB n =>
      simp only [wfToks, Bool.and_eq_true] at h
      have hf : flatToks (Tok.phB n :: ts) = '$' :: '{' :: (n ++ '}' :: flatToks ts) := by
        simp [flatToks, Tok.flat]
      rw [hf, scan_phB V n _ h.1, ih h.2]
      simp [renderTok]

/-- C2: for every template string (presented as its segment decomposition into
literal text and `$name` / `${name}` placeholders) and every variable mapping,
`render_template` substitutes each placeholder whose name is a key of the
mapping with its value exactly once (values are inserted verbatim and never
rescanned), leaves each placeholder whose name is not a key unchanged as a
literal placeholder marker, and — being a total function — raises no error. -/
theorem render_template_placeholder_semantics (vars : String → Option String)
    (ts : List Tok) (h : wfToks ts = true) :
    render_template ⟨flatToks ts⟩ vars =
      ⟨(ts.map (renderTok (fun n => (vars ⟨n⟩).map String.data))).flatten⟩ :=
  congrArg String.mk (scan_flatToks _ ts h)

/-- The spec scenario: `"Hi $first_name, from $company"` as segments. -/
def scenarioToks : List Tok :=
  [Tok.lit "Hi ".data, Tok.ph "first_name".data,
   Tok.lit ", from ".data, Tok.ph "company".data]

/-- The spec scenario mapping `{first_name: "Ana"}`. -/
def scenarioVars : String → Option String :=
  fun k => if k = "first_name" then some "Ana" else none

/-- Witness for C2 at the spec's scenario template and mapping. -/
theorem render_template_placeholder_semantics_witness :
    wfToks scenarioToks = true ∧
    render_template ⟨flatToks scenarioToks⟩ scenarioVars =
      ⟨(scenarioToks.map
          (renderTok (fun n => (scenarioVars ⟨n⟩).map String.data))).flatten⟩ :=
  ⟨by decide, render_template_placeholder_semantics scenarioVars scenarioToks (by decide)⟩

/-! ## Placeholder extraction (backend/services/template_service.py)

`TemplateService.extract_placeholders` runs
`re.findall(r"\$\{?([a-zA-Z_][a-zA-Z0-9_]*)\}?", content)` and deduplicates via
`list(set(...))`. The regex is scanned left to right with non-overlapping
matches; the brace characters are each optional independently. Python's set
iteration order is unspecified, so deduplication is modelled as keeping the
first occurrence of each name. Fuel (initially the string length, an upper
bound on the number of scanner steps) makes the recursion structural. -/

def extractF : Nat → List Char → List (List Char)
  | 0, _ => []
  | _ + 1, [] => []
  | fuel + 1, c :: s =>
    if c = '$' then
      match s with
      | [] => []
      | d :: s2 =>
        if d = '{' then
          match s2 with
          | [] => extractF fuel s
          | e :: s3 =>
            if isIdentStart e then
              let p := takeIdent s3
              let name := e :: p.1
              let after := match p.2 with
                | '}' :: t => t
                | t => t
              name :: extractF fuel after
            else extractF fuel s
        else if isIdentStart d then
          let p := takeIdent s2
          let name := d :: p.1
          let after := match p.2 with
            | '}' :: t => t
            | t => t
          name :: extractF fuel after
        else extractF fuel s
    else extractF fuel s

/-- Deduplication keeping first occurrences (models `list(set(...))`, whose
order Python leaves unspecified). -/
def dedupKeepFirst : List String → List String → List String
  | _, [] => []
  | seen, x :: xs =>
    if x ∈ seen then dedupKeepFirst seen xs
    else x :: dedupKeepFirst (x :: seen) xs

/-- `TemplateService.extract_placeholders`. -/
def extract_placeholders (content : String) : List String :=
  dedupKeepFirst [] ((extractF content.data.length content.data).map String.mk)

/-! ## Data model (backend/models.py) -/

inductive CampaignStatus where
  | draft
  | scheduled
  | in_progress
  | completed
  | failed
  | paused
deriving DecidableEq, Repr

inductive EmailStatus where
  | pending
  | sent
  | failed
  | bounced
deriving DecidableEq, Repr

/-- A stored contact document (fields the campaign runner reads; `first_name`,
`last_name` and `custom_fields` carry the `.get` defaults already applied). -/
structure Contact where
  email : String
  first_name : String := ""
  last_name : String := ""
  custom_fields : List (String × String) := []
deriving DecidableEq, Repr

/-- A stored template document. -/
structure TemplateRec where
  name : String := ""
  subject : String := ""
  content : String := ""
  description : Option String := none
  placeholders : List String := []
  use_llm : Bool := false
deriving DecidableEq, Repr

/-- A `TemplateUpdate` body with `exclude_unset`: `none` means the field was
not supplied by the caller. -/
structure TemplatePatch where
  name : Option String := none
  subject : Option String := none
  content : Option String := none
  description : Option String := none
  placeholders : Option (List String) := none
  use_llm : Option Bool := none
deriving DecidableEq, Repr

/-- A stored campaign document (timestamps are logical clock values). -/
structure Campaign where
  id : String
  name : String := ""
  template_id : String := ""
  contact_ids : List String := []
  status : CampaignStatus := .draft
  total_emails : Nat := 0
  sent_count : Nat := 0
  failed_count : Nat := 0
  created_at : Nat := 0
  updated_at : Nat := 0
  started_at : Option Nat := none
  completed_at : Option Nat := none
deriving DecidableEq, Repr

/-- One `email_logs` row as inserted by the senders. -/
structure LogRow where
  campaign_id : String
  contact_id : String
  template_id : Option String
  subject : String
  body : String
  status : EmailStatus
  sent_at : Option Nat
  error_message : Option String
  created_at : Nat
deriving DecidableEq, Repr

/-- Observable effects of a run: the `email_logs` collection, the number of real
SMTP network interactions attempted, and the logical clock behind
`datetime.utcnow()`. -/
structure EffState where
  logs : List LogRow := []
  smtp_sends : Nat := 0
  clock : Nat := 0
deriving DecidableEq, Repr

/-- `datetime.utcnow()`: read the clock and advance it. -/
def utcnow (st : EffState) : Nat × EffState :=
  (st.clock, { st with clock := st.clock + 1 })

/-- The external collaborators of a run: the contact and template lookups of the
document store, the SMTP transport (connect + login + transmit, `.error e`
modelling a raised exception with message `e`), the LLM chat call, and whether
the `email_logs` insert succeeds. -/
structure RunEnv where
  contacts : String → Option Contact
  templates : String → Option TemplateRec
  smtp : String → String → String → Except String Unit
  chat : String → String → Except String String
  log_insert_ok : Bool := true

/-- Python truthiness of an optional string id (`None` and `""` are falsy),
as tested by `if log_to_db and campaign_id and contact_id`. -/
def truthyOpt : Option String → Bool
  | none => false
  | some s => !(s == "")

/-- Python `body[:500]`. -/
def pyTake (n : Nat) (s : String) : String := ⟨s.data.take n⟩

/-! ## Email senders (backend/services/email_sender.py) -/

/-- `AsyncEmailSender._log_email`: builds the row (`sent_at` is a fresh
`utcnow()` only for a sent status) and inserts it; an insert failure is caught
and only logged, so the state is returned unchanged in that case. -/
def log_email (env : RunEnv) (campaign_id contact_id : String)
    (template_id : Option String) (subject body : String) (status : EmailStatus)
    (error_message : Option String) (st : EffState) : EffState :=
  if env.log_insert_ok then
    let p :=
      if status = EmailStatus.sent then
        let q := utcnow st
        (some q.1, q.2)
      else ((none : Option Nat), st)
    let q2 := utcnow p.2
    let row : LogRow :=
      { campaign_id := campaign_id, contact_id := contact_id,
        template_id := template_id, subject := subject, body := body,
        status := status, sent_at := p.1, error_message := error_message,
        created_at := q2.1 }
    { q2.2 with logs := q2.2.logs ++ [row] }
  else st

/-- `AsyncEmailSender.send_email`: build the MIME message, connect, optionally
STARTTLS, login and transmit (all modelled by the `smtp` oracle; one network
interaction is counted either way), then log and return `(True, None)`; any
exception is caught, logged with its message and returned as
`(False, str(e))`. -/
def async_send_email (env : RunEnv) (to_email subject body : String)
    (html : Bool) (log_to_db : Bool) (campaign_id contact_id template_id : Option String)
    (st : EffState) : (Bool × Option String) × EffState :=
  match env.smtp to_email subject body with
  | Except.ok _ =>
    let st1 := { st with smtp_sends := st.smtp_sends + 1 }
    let st2 :=
      if log_to_db && truthyOpt campaign_id && truthyOpt contact_id then
        log_email env (campaign_id.getD "") (contact_id.getD "") template_id
          subject body EmailStatus.sent none st1
      else st1
    ((true, none), st2)
  | Except.error e =>
    let st1 := { st with smtp_sends := st.smtp_sends + 1 }
    let st2 :=
      if log_to_db && truthyOpt campaign_id && truthyOpt contact_id then
        log_email env (campaign_id.getD "") (contact_id.getD "") template_id
          subject body EmailStatus.failed (some e) st1
      else st1
    ((false, some e), st2)

/-- `DryRunEmailSender.send_email`: never touches the network, still inserts a
`status=sent` log row (with the body truncated to 500 characters and a fresh
`sent_at`), swallows an insert failure, and always returns `(True, None)`. -/
def dry_run_send_email (env : RunEnv) (to_email subject body : String)
    (html : Bool) (log_to_db : Bool) (campaign_id contact_id template_id : Option String)
    (st : EffState) : (Bool × Option String) × EffState :=
  let st2 :=
    if log_to_db && truthyOpt campaign_id && truthyOpt contact_id then
      if env.log_insert_ok then
        let p := utcnow st
        let q := utcnow p.2
        let row : LogRow :=
          { campaign_id := campaign_id.getD "", contact_id := contact_id.getD "",
            template_id := template_id, subject := subject, body := pyTake 500 body,
            status := EmailStatus.sent, sent_at := some p.1, error_message := none,
            created_at := q.1 }
        { q.2 with logs := q.2.logs ++ [row] }
      else st
    else st
  ((true, none), st2)

/-! ## Ollama service (backend/services/ollama_service.py) -/

/-- The fixed system prompt of `OllamaService.generate_email`. -/
def default_system_prompt : String :=
  "You are an expert email writer. Generate a personalized, professional email based on the template and recipient data provided. Maintain the tone and structure of the template while personalizing the content. Return only the email content without any additional commentary."

/-- `OllamaService._format_recipient_data`. -/
def format_recipient_data (data : List (String × String)) : String :=
  String.intercalate "\n" (data.map (fun kv => "- " ++ kv.1 ++ ": " ++ kv.2))

/-- The user prompt `generate_email` builds from template and recipient data. -/
def user_prompt_for (template : String) (recipient : List (String × String)) : String :=
  "Template:\n" ++ template ++ "\n\nRecipient Data:\n" ++
    format_recipient_data recipient ++
    "\n\nPlease generate a personalized email based on the template above, incorporating the recipient data naturally."

/-- `OllamaService.generate_email`: calls the chat endpoint and returns the
generated content; any error is re-raised as
`RuntimeError(f"Failed to generate email: {e}")`, modelled as `.error`. -/
def generate_email (env : RunEnv) (template : String)
    (recipient_data : List (String × String)) : Except String String :=
  match env.chat default_system_prompt (user_prompt_for template recipient_data) with
  | Except.ok response => Except.ok response
  | Except.error e => Except.error ("Failed to generate email: " ++ e)

/-! ## Template routes (backend/routes/templates.py) -/

/-- `create_template`: the stored document is the request body with
`placeholders` overwritten by extraction from the submitted content (a
client-supplied `placeholders` list is discarded). -/
def create_template (req : TemplateRec) : TemplateRec :=
  { req with placeholders := extract_placeholders req.content }

/-- `update_template`: apply the set fields of the patch, then, only if the
patch contains `content`, overwrite `placeholders` with the extraction from the
new content. -/
def update_template (t : TemplateRec) (p : TemplatePatch) : TemplateRec :=
  let base : TemplateRec :=
    { t with
      name := p.name.getD t.name,
      subject := p.subject.getD t.subject,
      content := p.content.getD t.content,
      description := match p.description with | some d => some d | none => t.description,
      placeholders := p.placeholders.getD t.placeholders,
      use_llm := p.use_llm.getD t.use_llm }
  match p.content with
  | some c => { base with placeholders := extract_placeholders c }
  | none => base

/-! ## Campaign routes and runner (backend/routes/campaigns.py) -/

/-- Result of `POST /campaigns/{id}/send`, for a campaign that was found:
either an HTTP 400 whose detail reports the campaign's current status, or the
immediate acknowledgment returned while the background task is scheduled. -/
inductive SendOutcome where
  | rejected : CampaignStatus → SendOutcome
  | started : String → Bool → SendOutcome
deriving DecidableEq, Repr

/-- `send_campaign` (modelled at the point where the campaign record has been
found): if the status is not in `[DRAFT, PAUSED]` the request is rejected
before any write, otherwise the record is set to `in_progress` with fresh
`started_at`/`updated_at` and the background send is scheduled. No other field
is written — in particular the counters are not touched here. -/
def send_campaign (c : Campaign) (dry_run : Bool) (now : Nat) :
    Campaign × SendOutcome :=
  if c.status ≠ CampaignStatus.draft ∧ c.status ≠ CampaignStatus.paused then
    (c, SendOutcome.rejected c.status)
  else
    ({ c with status := CampaignStatus.in_progress, started_at := some now,
              updated_at := now },
     SendOutcome.started c.id dry_run)

/-- The flat variable mapping built per recipient: reserved keys `email`,
`first_name`, `last_name`, then the contact's custom fields (`**custom_fields`
comes last, so custom fields shadow the reserved keys). -/
def recipient_data (c : Contact) : List (String × String) :=
  [("email", c.email), ("first_name", c.first_name), ("last_name", c.last_name)]
    ++ c.custom_fields

/-- Lookup in the dict denoted by an association list built left to right:
later bindings win, as in a Python dict literal with `**` expansion. -/
def dict_get : List (String × String) → String → Option String
  | [], _ => none
  | kv :: rest, k =>
    match dict_get rest k with
    | some v => some v
    | none => if k == kv.1 then some kv.2 else none

/-- One iteration of the per-recipient loop of `_send_campaign_emails`, folding
`(sent_count, failed_count, effects)`: resolve the contact (missing → count
failure, continue, no log row), produce the body (LLM path raises → caught by
the per-recipient `except`, count failure, no send, no log row), send via the
chosen sender and tally its boolean result. -/
def process_contact (env : RunEnv) (tmpl : TemplateRec)
    (campaign_id template_id : String) (dry_run : Bool)
    (acc : Nat × Nat × EffState) (contact_id : String) : Nat × Nat × EffState :=
  match env.contacts contact_id with
  | none => (acc.1, acc.2.1 + 1, acc.2.2)
  | some contact =>
    let rd := recipient_data contact
    let bodyE : Except String String :=
      if tmpl.use_llm then generate_email env tmpl.content rd
      else Except.ok (render_template tmpl.content (dict_get rd))
    match bodyE with
    | Except.error _ => (acc.1, acc.2.1 + 1, acc.2.2)
    | Except.ok body =>
      let r :=
        if dry_run then
          dry_run_send_email env contact.email tmpl.subject body false true
            (some campaign_id) (some contact_id) (some template_id) acc.2.2
        else
          async_send_email env contact.email tmpl.subject body false true
            (some campaign_id) (some contact_id) (some template_id) acc.2.2
      if r.1.1 then (acc.1 + 1, acc.2.1, r.2)
      else (acc.1, acc.2.1 + 1, r.2)

/-- The whole per-recipient loop, in contact-reference order. -/
def run_loop (env : RunEnv) (tmpl : TemplateRec)
    (campaign_id template_id : String) (dry_run : Bool)
    (acc : Nat × Nat × EffState) (refs : List String) : Nat × Nat × EffState :=
  refs.foldl (process_contact env tmpl campaign_id template_id dry_run) acc

/-- `_send_campaign_emails`: load the template (a failed load is an
orchestration error caught by the outer handler, which marks the campaign
`failed` and leaves the counters as they were), run the loop with local
counters starting at zero, then write terminal status, final counters and
completion timestamp in a single update. -/
def send_campaign_emails (env : RunEnv) (c : Campaign) (dry_run : Bool)
    (st0 : EffState) : Campaign × EffState :=
  match env.templates c.template_id with
  | none =>
    let p := utcnow st0
    ({ c with status := CampaignStatus.failed, updated_at := p.1 }, p.2)
  | some tmpl =>
    let r := run_loop env tmpl c.id c.template_id dry_run (0, 0, st0) c.contact_ids
    let p := utcnow r.2.2
    ({ c with status := CampaignStatus.completed, sent_count := r.1,
              failed_count := r.2.1, completed_at := some p.1, updated_at := p.1 },
     p.2)

/-! ## Claim theorems -/

theorem process_contact_one (env : RunEnv) (tmpl : TemplateRec)
    (cid tid : String) (dry : Bool) (s f : Nat) (st : EffState) (x : String) :
    (process_contact env tmpl cid tid dry (s, f, st) x).1 +
      (process_contact env tmpl cid tid dry (s, f, st) x).2.1 = s + f + 1 := by
  cases h : env.contacts x with
  | none => simp [process_contact, h]; omega
  | some contact =>
    simp only [process_contact, h]
    repeat' split
    all_goals (first | omega | (simp; try omega))

theorem run_loop_counts (env : RunEnv) (tmpl : TemplateRec)
    (cid tid : String) (dry : Bool) :
    ∀ (refs : List String) (s f : Nat) (st : EffState),
      (run_loop env tmpl cid tid dry (s, f, st) refs).1 +
        (run_loop env tmpl cid tid dry (s, f, st) refs).2.1 = s + f + refs.length := by
  intro refs
  induction refs with
  | nil => intro s f st; simp [run_loop]
  | cons x rest ih =>
    intro s f st
    have h1 := process_contact_one env tmpl cid tid dry s f st x
    rcases hp : process_contact env tmpl cid tid dry (s, f, st) x with ⟨s1, f1, st1⟩
    rw [hp] at h1
    simp only at h1
    have h2 := ih s1 f1 st1
    simp only [run_loop, List.foldl_cons, hp] at h2 ⊢
    simp only [List.length_cons]
    omega

/-- C1: a campaign run that terminates normally (the template loads and the
per-recipient loop exhausts the contact-reference list) writes final counters
with `sent_count + failed_count` equal to the number of contact references —
each reference is tallied exactly once, references to missing contacts counting
toward failed — and writes terminal status `completed`. -/
theorem campaign_run_final_counters_and_status (env : RunEnv) (c : Campaign)
    (dry : Bool) (st0 : EffState) (tmpl : TemplateRec)
    (h : env.templates c.template_id = some tmpl) :
    (send_campaign_emails env c dry st0).1.status = CampaignStatus.completed ∧
    (send_campaign_emails env c dry st0).1.sent_count +
      (send_campaign_emails env c dry st0).1.failed_count = c.contact_ids.length := by
  constructor
  · simp [send_campaign_emails, h]
  · simp only [send_campaign_emails, h]
    simpa using run_loop_counts env tmpl c.id c.template_id dry c.contact_ids 0 0 st0

/-- An environment whose store answers every template lookup, resolves no
contact, whose transport always transmits, and whose LLM is unreachable. -/
def emptyTemplate : TemplateRec := {}

def unitEnv : RunEnv :=
  { contacts := fun _ => none,
    templates := fun _ => some emptyTemplate,
    smtp := fun _ __ _ => Except.ok (),
    chat := fun _ _ => Except.error "unavailable",
    log_insert_ok := true }

/-- The spec scenario's campaign shape: three contact references. -/
def threeRefCampaign : Campaign :=
  { id := "c1", template_id := "t1", contact_ids := ["k1", "k2", "k3"] }

/-- Witness for C1 at a three-reference campaign. -/
theorem campaign_run_final_counters_and_status_witness :
    unitEnv.templates threeRefCampaign.template_id = some emptyTemplate ∧
    ((send_campaign_emails unitEnv threeRefCampaign false {}).1.status =
        CampaignStatus.completed ∧
      (send_campaign_emails unitEnv threeRefCampaign false {}).1.sent_count +
        (send_campaign_emails unitEnv threeRefCampaign false {}).1.failed_count =
        threeRefCampaign.contact_ids.length) :=
  ⟨rfl, campaign_run_final_counters_and_status unitEnv threeRefCampaign false {} emptyTemplate rfl⟩

/-- C3: a send-request for a campaign whose status is not `draft`, `paused` or
`scheduled` is rejected with an error reporting the current status, and the
campaign record — status, counters and timestamps — is returned entirely
unchanged (the rejection is raised before any write). -/
theorem send_campaign_rejects_other_statuses_unchanged (c : Campaign)
    (dry : Bool) (now : Nat)
    (h1 : c.status ≠ CampaignStatus.draft) (h2 : c.status ≠ CampaignStatus.paused)
    (h3 : c.status ≠ CampaignStatus.scheduled) :
    send_campaign c dry now = (c, SendOutcome.rejected c.status) := by
  simp [send_campaign, h1, h2]

/-- A completed campaign with nonzero counters and timestamps. -/
def doneCampaign : Campaign :=
  { id := "c2", status := CampaignStatus.completed, sent_count := 4,
    failed_count := 1, started_at := some 10, completed_at := some 20 }

/-- Witness for C3 at a completed campaign. -/
theorem send_campaign_rejects_other_statuses_unchanged_witness :
    (doneCampaign.status ≠ CampaignStatus.draft ∧
      doneCampaign.status ≠ CampaignStatus.paused ∧
      doneCampaign.status ≠ CampaignStatus.scheduled) ∧
    send_campaign doneCampaign false 42 =
      (doneCampaign, SendOutcome.rejected doneCampaign.status) :=
  ⟨by decide,
   send_campaign_rejects_other_statuses_unchanged doneCampaign false 42
     (by decide) (by decide) (by decide)⟩

/-- A draft campaign carrying nonzero counters from an earlier run. -/
def staleCountCampaign : Campaign :=
  { id := "c3", status := CampaignStatus.draft, sent_count := 5, failed_count := 7 }

/-- Counterexample to C4 as stated: accepting a send-request does not reset the
counters to zero at that moment — the stale values persist. -/
theorem send_campaign_counters_not_reset :
    staleCountCampaign.status = CampaignStatus.draft ∧
    ¬ ((send_campaign staleCountCampaign false 3).1.sent_count = 0 ∧
       (send_campaign staleCountCampaign false 3).1.failed_count = 0) := by
  decide

/-- C4 (amended): a send-request on a `draft` or `paused` campaign transitions
it to `in_progress` and records the start timestamp, but does not reset the
counters at that moment: `sent_count` and `failed_count` keep their prior
values until the finished run overwrites them with totals recounted from
zero. -/
theorem send_campaign_start_keeps_counters (c : Campaign) (dry : Bool) (now : Nat)
    (h : c.status = CampaignStatus.draft ∨ c.status = CampaignStatus.paused) :
    (send_campaign c dry now).1.status = CampaignStatus.in_progress ∧
    (send_campaign c dry now).1.started_at = some now ∧
    (send_campaign c dry now).1.sent_count = c.sent_count ∧
    (send_campaign c dry now).1.failed_count = c.failed_count := by
  rcases h with h | h <;> simp [send_campaign, h]

/-- Witness for the amended C4 at a draft campaign with stale counters. -/
theorem send_campaign_start_keeps_counters_witness :
    (staleCountCampaign.status = CampaignStatus.draft ∨
      staleCountCampaign.status = CampaignStatus.paused) ∧
    ((send_campaign staleCountCampaign false 3).1.status = CampaignStatus.in_progress ∧
      (send_campaign staleCountCampaign false 3).1.started_at = some 3 ∧
      (send_campaign staleCountCampaign false 3).1.sent_count = staleCountCampaign.sent_count ∧
      (send_campaign staleCountCampaign false 3).1.failed_count = staleCountCampaign.failed_count) :=
  ⟨Or.inl rfl, send_campaign_start_keeps_counters staleCountCampaign false 3 (Or.inl rfl)⟩

/-- C6: a contact reference that no longer resolves increments the failed
counter, leaves the effect state — logs, network counter, clock — untouched
(so no log row is written), and the loop goes on to process the remaining
references from exactly that state. -/
theorem missing_contact_counts_failure_no_log (env : RunEnv) (tmpl : TemplateRec)
    (cid tid : String) (dry : Bool) (s f : Nat) (st : EffState)
    (x : String) (rest : List String)
    (h : env.contacts x = none) :
    process_contact env tmpl cid tid dry (s, f, st) x = (s, f + 1, st) ∧
    run_loop env tmpl cid tid dry (s, f, st) (x :: rest) =
      run_loop env tmpl cid tid dry (s, f + 1, st) rest := by
  have hstep : process_contact env tmpl cid tid dry (s, f, st) x = (s, f + 1, st) := by
    simp [process_contact, h]
  exact ⟨hstep, by simp only [run_loop, List.foldl_cons, hstep]⟩

/-- Witness for C6: an environment where every contact reference is dangling. -/
theorem missing_contact_counts_failure_no_log_witness :
    unitEnv.contacts "k2" = none ∧
    (process_contact unitEnv emptyTemplate "c1" "t1" false (1, 0, {}) "k2" = (1, 0 + 1, {}) ∧
      run_loop unitEnv emptyTemplate "c1" "t1" false (1, 0, {}) ["k2", "k3"] =
        run_loop unitEnv emptyTemplate "c1" "t1" false (1, 0 + 1, {}) ["k3"]) :=
  ⟨rfl,
   missing_contact_counts_failure_no_log unitEnv emptyTemplate "c1" "t1" false 1 0 {}
     "k2" ["k3"] rfl⟩

/-- C7: when the template's personalization flag is set and the generation call
raises, the per-recipient handler counts that recipient as failed and moves on:
no send is attempted and no log row is written (the effect state is returned
untouched), and the loop continues with the remaining references. -/
theorem personalization_failure_no_send_no_log (env : RunEnv) (tmpl : TemplateRec)
    (cid tid : String) (dry : Bool) (s f : Nat) (st : EffState)
    (x : String) (rest : List String) (contact : Contact) (e : String)
    (hc : env.contacts x = some contact)
    (hllm : tmpl.use_llm = true)
    (hgen : generate_email env tmpl.content (recipient_data contact) =
      Except.error e) :
    process_contact env tmpl cid tid dry (s, f, st) x = (s, f + 1, st) ∧
    run_loop env tmpl cid tid dry (s, f, st) (x :: rest) =
      run_loop env tmpl cid tid dry (s, f + 1, st) rest := by
  have hstep : process_contact env tmpl cid tid dry (s, f, st) x = (s, f + 1, st) := by
    simp [process_contact, hc, hllm, hgen]
  exact ⟨hstep, by simp only [run_loop, List.foldl_cons, hstep]⟩

/-- An environment whose chat endpoint always raises. -/
def llmDownEnv : RunEnv :=
  { contacts := fun _ => some { email := "ana@example.com" },
    templates := fun _ => none,
    smtp := fun _ _ _ => Except.ok (),
    chat := fun _ _ => Except.error "boom",
    log_insert_ok := true }

/-- A template with the personalization flag set. -/
def llmTemplate : TemplateRec := { content := "Hi $first_name", use_llm := true }

/-- Witness for C7 with an unreachable generation service. -/
theorem personalization_failure_no_send_no_log_witness :
    llmDownEnv.contacts "k1" = some { email := "ana@example.com" } ∧
    llmTemplate.use_llm = true ∧
    generate_email llmDownEnv llmTemplate.content
        (recipient_data { email := "ana@example.com" }) =
      Except.error ("Failed to generate email: " ++ "boom") ∧
    (process_contact llmDownEnv llmTemplate "c1" "t1" false (0, 0, {}) "k1" =
        (0, 0 + 1, {}) ∧
      run_loop llmDownEnv llmTemplate "c1" "t1" false (0, 0, {}) ["k1", "k2"] =
        run_loop llmDownEnv llmTemplate "c1" "t1" false (0, 0 + 1, {}) ["k2"]) :=
  ⟨rfl, rfl, rfl,
   personalization_failure_no_send_no_log llmDownEnv llmTemplate "c1" "t1" false 0 0 {}
     "k1" ["k2"] { email := "ana@example.com" } ("Failed to generate email: " ++ "boom")
     rfl rfl rfl⟩

/-- A 501-character body, longer than the dry-run truncation limit. -/
def longBody : String := ⟨List.replicate 501 'a'⟩

set_option maxRecDepth 16384 in
/-- Counterexample to C5 as stated: for a body longer than 500 characters the
dry-run log row is not identical to the row a real successful send writes —
the dry-run sender stores `body[:500]`. -/
theorem dry_run_log_row_differs :
    (dry_run_send_email unitEnv "r@example.com" "s" longBody false true
        (some "cp") (some "ct") none {}).2.logs ≠
    (async_send_email unitEnv "r@example.com" "s" longBody false true
        (some "cp") (some "ct") none {}).2.logs := by
  decide

/-- C5 (amended): for every recipient in dry-run mode the null transport
returns `(true, none)` and performs no network I/O, and it writes a
`status=sent` log row equal to the row a real successful send would write
except that the body is truncated to its first 500 characters (identical
whenever the body is at most 500 characters long). -/
theorem dry_run_send_same_row_truncated (env : RunEnv)
    (to_email subject body : String) (html : Bool) (camp cid tid : Option String)
    (st : EffState)
    (htc : truthyOpt camp = true) (hti : truthyOpt cid = true)
    (hok : env.smtp to_email subject body = Except.ok ())
    (hdb : env.log_insert_ok = true) :
    (dry_run_send_email env to_email subject body html true camp cid tid st).1 =
      (true, none) ∧
    (dry_run_send_email env to_email subject body html true camp cid tid st).2.smtp_sends
      = st.smtp_sends ∧
    ∃ row : LogRow,
      (async_send_email env to_email subject body html true camp cid tid st).2.logs
        = st.logs ++ [row] ∧
      row.status = EmailStatus.sent ∧ row.body = body ∧
      (dry_run_send_email env to_email subject body html true camp cid tid st).2.logs
        = st.logs ++ [{ row with body := pyTake 500 row.body }] := by
  refine ⟨rfl, ?_, ?_⟩
  · simp [dry_run_send_email, htc, hti, hdb, utcnow]
  · refine ⟨{ campaign_id := camp.getD "", contact_id := cid.getD "",
              template_id := tid, subject := subject, body := body,
              status := EmailStatus.sent, sent_at := some st.clock,
              error_message := none, created_at := st.clock + 1 }, ?_, rfl, rfl, ?_⟩
    · simp [async_send_email, hok, htc, hti, hdb, log_email, utcnow]
    · simp [dry_run_send_email, htc, hti, hdb, utcnow]

/-- Witness for the amended C5 at a short body. -/
theorem dry_run_send_same_row_truncated_witness :
    truthyOpt (some "cp") = true ∧ truthyOpt (some "ct") = true ∧
    unitEnv.smtp "r@example.com" "s" "hello" = Except.ok () ∧
    unitEnv.log_insert_ok = true ∧
    ((dry_run_send_email unitEnv "r@example.com" "s" "hello" false true
        (some "cp") (some "ct") none {}).1 = (true, none) ∧
      (dry_run_send_email unitEnv "r@example.com" "s" "hello" false true
        (some "cp") (some "ct") none {}).2.smtp_sends = EffState.smtp_sends {} ∧
      ∃ row : LogRow,
        (async_send_email unitEnv "r@example.com" "s" "hello" false true
          (some "cp") (some "ct") none {}).2.logs = EffState.logs {} ++ [row] ∧
        row.status = EmailStatus.sent ∧ row.body = "hello" ∧
        (dry_run_send_email unitEnv "r@example.com" "s" "hello" false true
          (some "cp") (some "ct") none {}).2.logs
          = EffState.logs {} ++ [{ row with body := pyTake 500 row.body }]) :=
  ⟨rfl, rfl, rfl, rfl,
   dry_run_send_same_row_truncated unitEnv "r@example.com" "s" "hello" false
     (some "cp") (some "ct") none {} rfl rfl rfl rfl⟩

/-- C9: the real transport's send reports its outcome purely as the returned
pair — `(true, none)` when the transport call succeeds and `(false, message)`
when it raises — and, being a total function, lets no exception propagate past
its boundary. -/
theorem async_send_reports_status_as_value (env : RunEnv)
    (to_email subject body : String) (html log_to_db : Bool)
    (camp cid tid : Option String) (st : EffState) :
    (async_send_email env to_email subject body html log_to_db camp cid tid st).1 =
      match env.smtp to_email subject body with
      | Except.ok _ => (true, none)
      | Except.error e => (false, some e) := by
  cases h : env.smtp to_email subject body <;> simp [async_send_email, h]

/-- C10: for both senders a failure of the `email_logs` insert is swallowed: it
never changes the returned pair (which still reports the transport outcome, in
particular `(true, none)` after a successful transmission) even though no log
row is written. -/
theorem log_insert_failure_swallowed (env : RunEnv)
    (to_email subject body : String) (html : Bool)
    (camp cid tid : Option String) (st : EffState) :
    (async_send_email { env with log_insert_ok := false } to_email subject body
        html true camp cid tid st).1 =
      (async_send_email { env with log_insert_ok := true } to_email subject body
        html true camp cid tid st).1 ∧
    (async_send_email { env with log_insert_ok := false } to_email subject body
        html true camp cid tid st).2.logs = st.logs ∧
    (dry_run_send_email { env with log_insert_ok := false } to_email subject body
        html true camp cid tid st).1 = (true, none) ∧
    (dry_run_send_email { env with log_insert_ok := false } to_email subject body
        html true camp cid tid st).2.logs = st.logs ∧
    (async_send_email { env with log_insert_ok := false } to_email subject body
        html true camp cid tid st).1 =
      match env.smtp to_email subject body with
      | Except.ok _ => (true, none)
      | Except.error e => (false, some e) := by
  cases h : env.smtp to_email subject body <;>
    simp [async_send_email, dry_run_send_email, log_email, h]

/-- C8 (amended): creation always stores `placeholders` extracted from the
submitted content, and an update re-derives them whenever the patch carries
`content`; the invariant `placeholders = extract(content)` is preserved by any
create, and by any update that does not hand-set `placeholders` without also
updating `content`. (A patch carrying `placeholders` but no `content` stores
the hand-edited list verbatim — see the counterexample.) -/
theorem template_placeholders_rederived (req t : TemplateRec) (p : TemplatePatch)
    (hinv : t.placeholders = extract_placeholders t.content)
    (hp : p.placeholders = none ∨ p.content ≠ none) :
    (create_template req).placeholders =
      extract_placeholders (create_template req).content ∧
    (update_template t p).placeholders =
      extract_placeholders (update_template t p).content := by
  constructor
  · simp [create_template]
  · cases hc : p.content with
    | some c => simp [update_template, hc]
    | none =>
      have hpl : p.placeholders = none := by
        rcases hp with h | h
        · exact h
        · exact absurd hc h
      simp [update_template, hc, hpl, hinv]

/-- A stored template satisfying the placeholder invariant. -/
def invTemplate : TemplateRec := { content := "Hi $a", placeholders := ["a"] }

/-- A patch that updates the content (triggering re-extraction). -/
def contentPatch : TemplatePatch := { content := some "Yo ${b} and $c" }

/-- Witness for the amended C8. -/
theorem template_placeholders_rederived_witness :
    invTemplate.placeholders = extract_placeholders invTemplate.content ∧
    (contentPatch.placeholders = none ∨ contentPatch.content ≠ none) ∧
    ((create_template invTemplate).placeholders =
        extract_placeholders (create_template invTemplate).content ∧
      (update_template invTemplate contentPatch).placeholders =
        extract_placeholders (update_template invTemplate contentPatch).content) :=
  ⟨by decide, by decide,
   template_placeholders_rederived invTemplate invTemplate contentPatch
     (by decide) (by decide)⟩

/-- A patch that hand-sets `placeholders` without touching `content`. -/
def handPatch : TemplatePatch := { placeholders := some ["b"] }

/-- Counterexample to C8 as stated: an update whose patch carries a hand-edited
`placeholders` list but no `content` stores that list verbatim, so the stored
list no longer equals the extraction from the template's current body. -/
theorem update_stores_hand_edited_placeholders :
    (update_template invTemplate handPatch).placeholders ≠
      extract_placeholders (update_template invTemplate handPatch).content := by
  decide

end MailerSlave
